import Mathlib

/-!
Verification development for the course-design agents backend
(src/python-backend/main.py).

The Python source declares a shared conversation context, two tools, a
handoff hook, two input guardrails and four agents wired into a handoff
graph.  The pure parts are embedded directly as Lean functions; the
nested classifier calls of the guardrails are modelled by passing the
classifier verdict as an explicit argument, and the orchestration layer
(the turn state machine of the runtime, which is not part of this
source tree) is modelled from the specification.
-/

-- =========================
-- CONTEXT (main.py lines 21-31)
-- =========================

/-- Conversation context for course design agents.  Each pydantic field
is `str | None = None`, embedded as `Option String`. -/
structure CourseDesignContext where
  course_title : Option String := none
  target_audience : Option String := none
  learning_objectives : Option String := none
  outline : Option String := none
  notes : Option String := none
deriving DecidableEq, Repr

/-- Factory for a new CourseDesignContext (all fields unset). -/
def create_initial_context : CourseDesignContext := {}

-- =========================
-- TOOLS (main.py lines 38-62)
-- =========================

/-- Tool `outline_course`: writes `course_title` and `outline` on the
live context and returns the generated outline text.  The Python body
mutates `context.context`; the embedding returns the updated context
together with the returned string. -/
def outline_course (context : CourseDesignContext) (topic : String) :
    CourseDesignContext × String :=
  let outline : String :=
    "1. Introduction to " ++ topic ++ "\n" ++
    "2. Core concepts\n" ++
    "3. Case studies\n" ++
    "4. Implementation steps"
  ({ context with course_title := some topic, outline := some outline }, outline)

/-- Tool `lesson_content`: takes only the module string (no context
parameter in the Python signature) and returns short bullet points. -/
def lesson_content (module : String) : String :=
  "Key points for " ++ module ++ ": ..."

-- =========================
-- HOOKS (main.py lines 68-71)
-- =========================

/-- Handoff hook `on_content_handoff`: initializes the notes field when
handing off to the content expert.  Sets `notes` to the empty string
only when it is `None`. -/
def on_content_handoff (context : CourseDesignContext) : CourseDesignContext :=
  if context.notes = none then { context with notes := some "" } else context

-- =========================
-- GUARDRAILS (main.py lines 77-131)
-- =========================

/-- Schema for relevance guardrail decisions. -/
structure RelevanceOutput where
  reasoning : String
  is_relevant : Bool
deriving DecidableEq, Repr

/-- Schema for jailbreak guardrail decisions. -/
structure JailbreakOutput where
  reasoning : String
  is_safe : Bool
deriving DecidableEq, Repr

/-- Result record returned by a guardrail function: the classifier
output together with the tripwire flag. -/
structure GuardrailFunctionOutput (α : Type) where
  output_info : α
  tripwire_triggered : Bool
deriving DecidableEq, Repr

/-- Guardrail `relevance_guardrail`.  The Python body runs the nested
classifier agent (`guardrail_agent`, which has no tools and therefore
cannot write the context) on the input and wraps its verdict; `final`
models the classifier verdict obtained from that nested run.  The body
never writes the context, so the embedding returns it unchanged. -/
def relevance_guardrail (context : CourseDesignContext)
    (final : RelevanceOutput) :
    GuardrailFunctionOutput RelevanceOutput × CourseDesignContext :=
  (⟨final, !final.is_relevant⟩, context)

/-- Guardrail `jailbreak_guardrail`, analogous to `relevance_guardrail`
with the `JailbreakOutput` schema of the nested classifier. -/
def jailbreak_guardrail (context : CourseDesignContext)
    (final : JailbreakOutput) :
    GuardrailFunctionOutput JailbreakOutput × CourseDesignContext :=
  (⟨final, !final.is_safe⟩, context)

-- =========================
-- AGENTS (main.py lines 137-213)
-- =========================

/-- Modelled from the spec: the recommended handoff prompt header that
the runtime library prepends to agent instructions.  Its exact text
lives outside this source tree; only its presence matters here. -/
def handoffPromptHeader : String :=
  "# System context: multi-agent handoffs are in use."

/-- Python truthiness of `a or b` on an optional string: the default is
used when the field is unset or the empty string. -/
def pyOrStr (a : Option String) (default : String) : String :=
  match a with
  | none => default
  | some s => if s = "" then default else s

/-- Instruction resolver of the content expert agent: a pure function
of the context snapshot, embedding the current course title (or the
placeholder `[unknown topic]`). -/
def content_expert_instructions (run_context : CourseDesignContext) : String :=
  let title := pyOrStr run_context.course_title "[unknown topic]"
  handoffPromptHeader ++ "\n" ++
  "You are a content expert specializing in entrepreneurship.\n" ++
  "Provide factual information and resources to help develop the course.\n" ++
  "Current course title: " ++ title ++
  ". Ask clarifying questions if needed and use your tools when appropriate."

/-- Names of the four agents registered in main.py. -/
inductive AgentName where
  | triage
  | contentExpert
  | instructionalDesign
  | critic
deriving DecidableEq, Repr

/-- Handoff edge: target agent plus optional on-transition hook (the
`on_handoff` argument of the `handoff(...)` wrapper; a bare agent in a
handoffs list is an edge with no hook). -/
structure HandoffEdge where
  target : AgentName
  on_handoff : Option (CourseDesignContext → CourseDesignContext)

/-- Handoff lists exactly as wired in main.py: the triage agent lists
the three specialists (content expert with the `on_content_handoff`
hook), and lines 211-213 append the triage agent to each specialist. -/
def handoffs : AgentName → List HandoffEdge
  | .triage =>
      [⟨.contentExpert, some on_content_handoff⟩,
       ⟨.instructionalDesign, none⟩,
       ⟨.critic, none⟩]
  | .contentExpert => [⟨.triage, none⟩]
  | .instructionalDesign => [⟨.triage, none⟩]
  | .critic => [⟨.triage, none⟩]

/-- References to the two guardrail functions of main.py. -/
inductive GuardrailRef where
  | relevance
  | jailbreak
deriving DecidableEq, Repr

/-- Input guardrail lists exactly as declared on each agent in main.py
(lines 155, 176, 186, 207). -/
def input_guardrails : AgentName → List GuardrailRef
  | .contentExpert => [.relevance, .jailbreak]
  | .instructionalDesign => [.relevance, .jailbreak]
  | .critic => [.relevance, .jailbreak]
  | .triage => [.relevance, .jailbreak]

/-- Boolean edge test on the handoff graph. -/
def hasEdge (a b : AgentName) : Bool :=
  (handoffs a).any (fun e => e.target == b)

-- =========================
-- ORCHESTRATOR (modelled from the spec)
-- =========================

/-- Modelled from the spec: the per-turn verdicts produced by the two
nested guardrail classifiers (the backend classification outputs for
the latest user message). -/
structure GuardrailVerdicts where
  relevance : RelevanceOutput
  jailbreak : JailbreakOutput
deriving DecidableEq, Repr

/-- Whether a given guardrail trips on this turn: it evaluates the
corresponding guardrail function of main.py on the classifier verdict
and reads the tripwire flag. -/
def grTripped (context : CourseDesignContext) (v : GuardrailVerdicts) :
    GuardrailRef → Bool
  | .relevance => (relevance_guardrail context v.relevance).1.tripwire_triggered
  | .jailbreak => (jailbreak_guardrail context v.jailbreak).1.tripwire_triggered

/-- Whether any guardrail attached to the current agent trips. -/
def anyTripped (a : AgentName) (context : CourseDesignContext)
    (v : GuardrailVerdicts) : Bool :=
  (input_guardrails a).any (grTripped context v)

/-- Tool-call request as named by a backend decision: one of the two
tools registered in main.py with its argument. -/
inductive ToolCall where
  | outline (topic : String)
  | lesson (module : String)
deriving DecidableEq, Repr

/-- Applying one tool call to the live context, returning the updated
context and the tool result text. -/
def applyTool (context : CourseDesignContext) : ToolCall → CourseDesignContext × String
  | .outline t => outline_course context t
  | .lesson m => (context, lesson_content m)

/-- Applying a list of tool calls in request order (spec: within a
turn, tool calls are applied in the order the backend requested). -/
def applyTools (context : CourseDesignContext) : List ToolCall → CourseDesignContext
  | [] => context
  | c :: cs => applyTools (applyTool context c).1 cs

/-- Modelled from the spec: the backend decision for one turn — a final
reply, tool calls followed by a reply, tool calls followed by a handoff
request, or a backend failure. -/
inductive Decision where
  | reply (text : String)
  | toolsThenReply (calls : List ToolCall) (text : String)
  | handoffTo (calls : List ToolCall) (target : AgentName)
  | backendFailure
deriving DecidableEq, Repr

/-- Modelled from the spec: the structured outcome of one turn. -/
inductive Outcome where
  | replied (text : String)
  | guardrailAbort (rationale : String)
  | handedOff (target : AgentName)
  | configError
  | failed
deriving DecidableEq, Repr

/-- Result of one turn: the agent current after the turn, the context
after the turn, and the outcome surfaced to the caller. -/
structure TurnResult where
  updatedAgent : AgentName
  context : CourseDesignContext
  outcome : Outcome
deriving Repr

/-- Rationale surfaced on a guardrail abort: the reasoning of a tripped
guardrail of the current agent (the first in its list, per the spec any
tripped rationale may be surfaced). -/
def abortRationale (a : AgentName) (context : CourseDesignContext)
    (v : GuardrailVerdicts) : String :=
  match (input_guardrails a).find? (grTripped context v) with
  | some .relevance => v.relevance.reasoning
  | some .jailbreak => v.jailbreak.reasoning
  | none => ""

/-- Modelled from the spec: `runTurn`.  Guardrails of the current agent
gate the turn: if any trips the turn aborts with the rationale and no
agent or tool logic runs.  Otherwise the backend decision is applied:
a direct reply or tool round keeps the current agent; a handoff first
resolves the pending tool calls, then requires a declared edge from the
current agent (failing closed with a configuration error otherwise),
runs the on-transition hook of that edge exactly once, and makes the
target current.  A backend failure leaves agent and context unchanged. -/
def runTurn (a : AgentName) (context : CourseDesignContext)
    (v : GuardrailVerdicts) (d : Decision) : TurnResult :=
  if anyTripped a context v then
    ⟨a, context, .guardrailAbort (abortRationale a context v)⟩
  else
    match d with
    | .reply text => ⟨a, context, .replied text⟩
    | .toolsThenReply calls text => ⟨a, applyTools context calls, .replied text⟩
    | .handoffTo calls target =>
        let context1 := applyTools context calls
        match (handoffs a).find? (fun e => e.target == target) with
        | some e =>
            let context2 :=
              match e.on_handoff with
              | some hook => hook context1
              | none => context1
            ⟨target, context2, .handedOff target⟩
        | none => ⟨a, context1, .configError⟩
    | .backendFailure => ⟨a, context, .failed⟩

-- =========================
-- THEOREMS
-- =========================

/-- C1: each guardrail fires its tripwire exactly when the nested
classifier flag is false: `relevance_guardrail` trips iff
`RelevanceOutput.is_relevant` is false, and `jailbreak_guardrail`
trips iff `JailbreakOutput.is_safe` is false. -/
theorem guardrail_tripwire_iff_flag_false :
    (∀ (context : CourseDesignContext) (final : RelevanceOutput),
      (relevance_guardrail context final).1.tripwire_triggered = true ↔
        final.is_relevant = false) ∧
    (∀ (context : CourseDesignContext) (final : JailbreakOutput),
      (jailbreak_guardrail context final).1.tripwire_triggered = true ↔
        final.is_safe = false) := by
  constructor <;> intro context final <;>
    simp [relevance_guardrail, jailbreak_guardrail]

/-- C3: `outline_course` with topic `t` sets `course_title` to `t`,
sets `outline` to the exact four-line text, returns that same text, and
leaves `target_audience`, `learning_objectives` and `notes` unchanged. -/
theorem outline_course_spec (context : CourseDesignContext) (t : String) :
    (outline_course context t).1.course_title = some t ∧
    (outline_course context t).1.outline =
      some ("1. Introduction to " ++ t ++
        "\n2. Core concepts\n3. Case studies\n4. Implementation steps") ∧
    (outline_course context t).2 =
      "1. Introduction to " ++ t ++
        "\n2. Core concepts\n3. Case studies\n4. Implementation steps" ∧
    (outline_course context t).1.target_audience = context.target_audience ∧
    (outline_course context t).1.learning_objectives = context.learning_objectives ∧
    (outline_course context t).1.notes = context.notes := by
  simp [outline_course, String.append_assoc]

/-- C7: `on_content_handoff` sets `notes` to the empty string exactly
when it was unset (or already empty), keeps an already-set value, never
touches the four other fields, and is idempotent. -/
theorem on_content_handoff_spec (context : CourseDesignContext) :
    (on_content_handoff context).notes = some (context.notes.getD "") ∧
    ((on_content_handoff context).notes = some "" ↔
      (context.notes = none ∨ context.notes = some "")) ∧
    (on_content_handoff context).course_title = context.course_title ∧
    (on_content_handoff context).target_audience = context.target_audience ∧
    (on_content_handoff context).learning_objectives = context.learning_objectives ∧
    (on_content_handoff context).outline = context.outline ∧
    on_content_handoff (on_content_handoff context) = on_content_handoff context := by
  cases context with
  | mk ct ta lo ol no => cases no <;> simp [on_content_handoff]

/-- C8: `outline_course` is last-write-wins: a repeated call with the
same topic leaves the context exactly as one call, and a second call
with a different topic overwrites both written fields with the values
derived from the second topic alone. -/
theorem outline_course_last_write_wins (context : CourseDesignContext)
    (t u : String) :
    (outline_course (outline_course context t).1 t).1 =
      (outline_course context t).1 ∧
    (outline_course (outline_course context t).1 u).1 =
      (outline_course context u).1 := by
  cases context
  exact ⟨rfl, rfl⟩

/-- C9: every agent in the registry carries exactly the two guardrails
relevance then jailbreak in its input guardrail list, so the jailbreak
guardrail is evaluated whichever agent is current. -/
theorem all_agents_have_both_guardrails (a : AgentName) :
    input_guardrails a = [.relevance, .jailbreak] ∧
    GuardrailRef.jailbreak ∈ input_guardrails a := by
  cases a <;> exact ⟨rfl, by decide⟩

/-- C10: `lesson_content` takes no context reference: as a tool call it
returns exactly the text built from the module string and leaves the
context untouched. -/
theorem lesson_content_pure (context : CourseDesignContext) (m : String) :
    applyTool context (.lesson m) = (context, "Key points for " ++ m ++ ": ...") ∧
    lesson_content m = "Key points for " ++ m ++ ": ..." :=
  ⟨rfl, rfl⟩

/-- C5: the handoff graph has exactly the edges triage to each of the
three specialists and each specialist back to triage, no specialist to
specialist edge, and only the triage to content expert edge carries an
on-transition hook (namely `on_content_handoff`). -/
theorem handoff_graph_shape :
    (∀ a b : AgentName, hasEdge a b = true ↔
      ((a = .triage ∧
          (b = .contentExpert ∨ b = .instructionalDesign ∨ b = .critic)) ∨
       ((a = .contentExpert ∨ a = .instructionalDesign ∨ a = .critic) ∧
          b = .triage))) ∧
    (∀ a : AgentName, ∀ e ∈ handoffs a,
      (e.on_handoff.isSome = true ↔ (a = .triage ∧ e.target = .contentExpert))) ∧
    handoffs .triage = [⟨.contentExpert, some on_content_handoff⟩,
      ⟨.instructionalDesign, none⟩, ⟨.critic, none⟩] := by
  refine ⟨?_, ?_, rfl⟩
  · intro a b
    cases a <;> cases b <;> decide
  · intro a e he
    cases a <;> simp [handoffs] at he <;>
      rcases he with rfl | rfl | rfl <;> simp

/-- C2: neither guardrail writes any context field, and on a turn where
some guardrail of the current agent trips, `runTurn` returns the
context unchanged, field for field. -/
theorem guardrails_no_context_effect :
    (∀ (context : CourseDesignContext) (final : RelevanceOutput),
        (relevance_guardrail context final).2 = context) ∧
    (∀ (context : CourseDesignContext) (final : JailbreakOutput),
        (jailbreak_guardrail context final).2 = context) ∧
    (∀ (a : AgentName) (context : CourseDesignContext)
        (v : GuardrailVerdicts) (d : Decision),
        anyTripped a context v = true →
        (runTurn a context v d).context = context ∧
        (runTurn a context v d).context.course_title = context.course_title ∧
        (runTurn a context v d).context.target_audience = context.target_audience ∧
        (runTurn a context v d).context.learning_objectives = context.learning_objectives ∧
        (runTurn a context v d).context.outline = context.outline ∧
        (runTurn a context v d).context.notes = context.notes) := by
  refine ⟨fun _ _ => rfl, fun _ _ => rfl, ?_⟩
  intro a context v d h
  simp [runTurn, h]

/-- Witness for C2: a concrete off-topic verdict trips the relevance
guardrail of the triage agent and the context survives the turn. -/
theorem guardrails_no_context_effect_witness :
    anyTripped .triage create_initial_context
      ⟨⟨"off topic", false⟩, ⟨"", true⟩⟩ = true ∧
    (runTurn .triage create_initial_context
        ⟨⟨"off topic", false⟩, ⟨"", true⟩⟩ (.reply "x")).context =
      create_initial_context :=
  ⟨by decide,
   (guardrails_no_context_effect.2.2 .triage create_initial_context
      ⟨⟨"off topic", false⟩, ⟨"", true⟩⟩ (.reply "x") (by decide)).1⟩

/-- C4: the agent current after `runTurn` is the handoff target exactly
when the turn was not aborted by a guardrail and the backend decision
was a handoff to a target with a declared edge from the prior current
agent; in every other case (direct reply, tool round, guardrail abort,
undeclared handoff target, backend failure) it is the prior agent. -/
theorem runTurn_agent_transition (a : AgentName)
    (context : CourseDesignContext) (v : GuardrailVerdicts) (d : Decision) :
    (runTurn a context v d).updatedAgent =
      (match d with
       | .handoffTo _ target =>
           if anyTripped a context v = false ∧ hasEdge a target = true
           then target else a
       | _ => a) := by
  cases htrip : anyTripped a context v with
  | true => cases d <;> simp [runTurn, htrip]
  | false =>
    cases d with
    | reply text => simp [runTurn, htrip]
    | toolsThenReply calls text => simp [runTurn, htrip]
    | backendFailure => simp [runTurn, htrip]
    | handoffTo calls target =>
      cases hfind : (handoffs a).find? (fun e => e.target == target) with
      | some e =>
        have hp := List.find?_some hfind
        have hm : e ∈ handoffs a := List.mem_of_find?_eq_some hfind
        have hedge : hasEdge a target = true := by
          simp only [hasEdge, List.any_eq_true]
          exact ⟨e, hm, by simpa using hp⟩
        simp [runTurn, htrip, hfind, hedge]
      | none =>
        have hedge : hasEdge a target = false := by
          simp only [hasEdge, List.any_eq_false]
          intro e hm
          simpa using List.find?_eq_none.mp hfind e hm
        simp [runTurn, htrip, hfind, hedge]

/-- C6: the content expert instruction resolver reads the context
snapshot at invocation time: its result embeds the current course title
after the marker text when the title is set, embeds the placeholder
when unset, and composing with `outline_course` on topic `t` yields an
instruction text containing `t`. -/
theorem content_expert_instructions_title (c : CourseDesignContext)
    (t : String) :
    (c.course_title = some t →
      ∃ pre suf : String,
        content_expert_instructions c =
          pre ++ ("Current course title: " ++ t) ++ suf) ∧
    (c.course_title = none →
      ∃ pre suf : String,
        content_expert_instructions c =
          pre ++ "Current course title: [unknown topic]" ++ suf) ∧
    (∃ pre suf : String,
        content_expert_instructions (outline_course c t).1 =
          pre ++ t ++ suf) := by
  have key : ∀ d : CourseDesignContext, d.course_title = some t →
      ∃ pre suf : String,
        content_expert_instructions d =
          pre ++ ("Current course title: " ++ t) ++ suf := by
    intro d hd
    by_cases ht : t = ""
    · subst ht
      refine ⟨handoffPromptHeader ++ "\n" ++
        "You are a content expert specializing in entrepreneurship.\n" ++
        "Provide factual information and resources to help develop the course.\n",
        "[unknown topic]" ++
        ". Ask clarifying questions if needed and use your tools when appropriate.",
        ?_⟩
      simp only [content_expert_instructions, hd]
      rfl
    · refine ⟨handoffPromptHeader ++ "\n" ++
        "You are a content expert specializing in entrepreneurship.\n" ++
        "Provide factual information and resources to help develop the course.\n",
        ". Ask clarifying questions if needed and use your tools when appropriate.",
        ?_⟩
      simp only [content_expert_instructions, pyOrStr, hd]
      rw [if_neg ht]
      rfl
  refine ⟨key c, ?_, ?_⟩
  · intro h
    refine ⟨handoffPromptHeader ++ "\n" ++
      "You are a content expert specializing in entrepreneurship.\n" ++
      "Provide factual information and resources to help develop the course.\n",
      ". Ask clarifying questions if needed and use your tools when appropriate.",
      ?_⟩
    simp only [content_expert_instructions, h]
    rfl
  · obtain ⟨pre, suf, hps⟩ := key (outline_course c t).1 rfl
    refine ⟨pre ++ "Current course title: ", suf, ?_⟩
    rw [hps]
    simp [String.append_assoc]

/-- Witness for C6: the instruction text of a context whose title is
set to a concrete topic embeds that topic after the marker. -/
theorem content_expert_instructions_title_witness :
    (⟨some "AI", none, none, none, none⟩ : CourseDesignContext).course_title =
      some "AI" ∧
    (∃ pre suf : String,
      content_expert_instructions ⟨some "AI", none, none, none, none⟩ =
        pre ++ ("Current course title: " ++ "AI") ++ suf) :=
  ⟨rfl,
   (content_expert_instructions_title ⟨some "AI", none, none, none, none⟩
      "AI").1 rfl⟩
